import Mathlib

/-
Shallow embedding of src/main.py: a single-script UI that loads a serialized
regression model from a fixed path, renders three bounded integer sliders,
and on a button press builds a one-row labeled data frame and calls the
model's predict operation, rendering the formatted scalar or a caught error.

Python values that flow through the prediction output are modelled by PyVal
(numeric values as exact rationals; non-numeric values as strings, which
make the two-decimal formatting step fail, as in Python).  Exceptions are
modelled by Except: a function returning Except raises when it returns
Except.error, and a caller that pattern-matches on every constructor of the
result models a try/except that catches everything.
-/

inductive PyVal where
  | num (q : ℚ)
  | str (s : String)
deriving DecidableEq

/-- The UI elements the script can emit during one render pass
(st.error, st.warning, st.success, st.info, st.subheader, st.button). -/
inductive UIElem where
  | errorBox (s : String)
  | warningBox (s : String)
  | successBox (s : String)
  | infoBox (s : String)
  | subheader (s : String)
  | button (label : String)
deriving DecidableEq

/-- An opaque trained model: the feature names it was trained on, and the
underlying prediction function on the row's numeric values, which may itself
raise (Except.error). -/
structure Model where
  schema : List String
  core : List ℚ → Except String (List PyVal)

/-- A single-row pandas DataFrame: ordered column names paired with the
numeric cell of the single row. -/
structure DataFrame where
  cols : List (String × ℚ)

/-- The column names used by df_input in main.py, lines 101-105. -/
def featureNames : List String :=
  ["FlujoAmina", "FlujoAireColumna1", "Hierro Concentrado"]

/-- df_input (main.py lines 101-105): the single-row labeled record built
from the three current slider values, in source order. -/
def dfInput (amineFlow airFlow iron : ℤ) : DataFrame :=
  ⟨[("FlujoAmina", (amineFlow : ℚ)),
    ("FlujoAireColumna1", (airFlow : ℚ)),
    ("Hierro Concentrado", (iron : ℚ))]⟩

/-- model.predict on a DataFrame: scikit-learn / xgboost estimators validate
that the frame's column names match the names seen during fit and raise
otherwise; on a match the underlying regressor runs on the row values. -/
def Model.predict (m : Model) (df : DataFrame) : Except String (List PyVal) :=
  if df.cols.map Prod.fst = m.schema then m.core (df.cols.map Prod.snd)
  else Except.error "The feature names should match those that were passed during fit"

/-- Print a number of hundredths as a decimal with exactly two digits after
the point. -/
def formatHundredths (n : ℤ) : String :=
  let sgn := if n < 0 then "-" else ""
  let a := n.natAbs
  sgn ++ toString (a / 100) ++ "." ++ (if a % 100 < 10 then "0" else "") ++ toString (a % 100)

/-- Python format spec .2f on an exact rational: round to the nearest
hundredth and print with exactly two digits after the point. -/
def formatTwoDec (q : ℚ) : String :=
  formatHundredths (round (q * 100))

/-- Formatting a prediction output cell with .2f: succeeds on a number,
raises on a non-numeric value (as Python string formatting does). -/
def formatPy (v : PyVal) : Except String String :=
  match v with
  | PyVal.num q => Except.ok (formatTwoDec q)
  | PyVal.str _ => Except.error "Unknown format code .2f for object of type str"

/-- Message of the IndexError raised by prediction_value[0] on an empty
prediction array. -/
def idxErrMsg : String := "index 0 is out of bounds for axis 0 with size 0"

/-- Text prepended by the except-branch at main.py line 115. -/
def predErrText : String := "Ocurrió un error durante la predicción: "

/-- st.subheader text at main.py line 110. -/
def subheaderMsg : String := "📈 Resultado de la Predicción"

/-- Markdown that the success string at main.py line 112 puts before the
formatted value. -/
def successLead : String := "**Rendimiento Predicho:** `"

/-- st.info text at main.py line 113. -/
def infoMsg : String :=
  "Este valor representa el porcentaje estimado del producto deseado que se recuperará."

/-- st.warning text at main.py line 117. -/
def warnMsg : String :=
  "El modelo no pudo ser cargado. Por favor, verifica la ruta del archivo del modelo."

/-- Label of the predict button at main.py line 98. -/
def btnLabel : String := "🚀 Predecir Rendimiento"

/-- The try/except block at main.py lines 108-115.  st.subheader runs after a
successful predict call; indexing [0] and the .2f formatting happen inside
the f-string, before st.success, and any exception from predict, indexing or
formatting lands in the except-branch, which renders one st.error box. -/
def tryPredictBlock (m : Model) (df : DataFrame) : List UIElem :=
  match m.predict df with
  | Except.error e => [UIElem.errorBox (predErrText ++ e)]
  | Except.ok vals =>
    match vals with
    | [] => [UIElem.subheader subheaderMsg, UIElem.errorBox (predErrText ++ idxErrMsg)]
    | v :: _ =>
      match formatPy v with
      | Except.error e => [UIElem.subheader subheaderMsg, UIElem.errorBox (predErrText ++ e)]
      | Except.ok s =>
        [UIElem.subheader subheaderMsg,
         UIElem.successBox (successLead ++ s ++ "%`"),
         UIElem.infoBox infoMsg]

/-- The prediction logic at main.py lines 96-117: if the model loaded, render
the predict button and, when it is pressed, run the try/except block on the
record built from the current slider values; otherwise render the warning.
The second component counts how many times model.predict is invoked during
the render pass. -/
def predictionLogic (model : Option Model) (pressed : Bool)
    (amineFlow airFlow iron : ℤ) : List UIElem × ℕ :=
  match model with
  | some m =>
    if pressed then
      (UIElem.button btnLabel :: tryPredictBlock m (dfInput amineFlow airFlow iron), 1)
    else ([UIElem.button btnLabel], 0)
  | none => ([UIElem.warningBox warnMsg], 0)

/-- What the filesystem holds at a path: no file, a file joblib cannot
deserialize (raising an exception other than FileNotFoundError), or a
readable serialized model. -/
inductive FileState where
  | missing
  | unreadable (excMsg : String)
  | present (m : Model)

/-- The exceptions joblib.load can raise in this model: FileNotFoundError
for a missing path, or any other exception for an unreadable file. -/
inductive LoadExc where
  | fileNotFound (path : String)
  | other (msg : String)
deriving DecidableEq

/-- joblib.load: raises FileNotFoundError when the path does not resolve,
raises some other exception when the file is present but unreadable, and
returns the deserialized model otherwise. -/
def joblibLoad (fs : String → FileState) (path : String) : Except LoadExc Model :=
  match fs path with
  | FileState.missing => Except.error (LoadExc.fileNotFound path)
  | FileState.unreadable msg => Except.error (LoadExc.other msg)
  | FileState.present m => Except.ok m

/-- st.error text rendered by load_model on FileNotFoundError
(main.py line 24). -/
def loadErrMsg (path : String) : String :=
  "Error: No se encontró el archivo del modelo en " ++ path ++
  ". Asegúrate de que el archivo del modelo esté en el directorio correcto."

/-- load_model (main.py lines 17-25), body only (without the cache
decorator): try joblib.load; catch FileNotFoundError, render st.error and
return None; any other exception propagates (the except clause names only
FileNotFoundError).  The result pairs the returned value with the UI
elements the call renders. -/
def load_model (fs : String → FileState) (path : String) :
    Except LoadExc (Option Model × List UIElem) :=
  match joblibLoad fs path with
  | Except.ok m => Except.ok (some m, [])
  | Except.error (LoadExc.fileNotFound p) =>
      Except.ok (none, [UIElem.errorBox (loadErrMsg p)])
  | Except.error (LoadExc.other msg) => Except.error (LoadExc.other msg)

/-- State of the st.cache_resource cache: memoized results keyed by the
argument, plus an instrumentation counter of how many times the underlying
file was actually read. -/
structure CacheState where
  entries : List (String × (Option Model × List UIElem))
  loadCount : ℕ

def CacheState.empty : CacheState := ⟨[], 0⟩

/-- load_model as decorated by @st.cache_resource (main.py line 17): a cache
hit returns the memoized value (and replays its elements) without touching
the file; a miss runs the body, counts one file read and, when the body
returns normally, caches the result.  A raising body caches nothing. -/
def cachedLoadModel (fs : String → FileState) (path : String) (cs : CacheState) :
    Except LoadExc ((Option Model × List UIElem) × CacheState) :=
  match cs.entries.lookup path with
  | some r => Except.ok (r, cs)
  | none =>
    match load_model fs path with
    | Except.ok r => Except.ok (r, ⟨(path, r) :: cs.entries, cs.loadCount + 1⟩)
    | Except.error e => Except.error e

/-- An st.slider with integer min_value, max_value, value and step, as in
main.py lines 38-64. -/
structure SliderSpec where
  label : String
  minValue : ℤ
  maxValue : ℤ
  value : ℤ
  step : ℤ

/-- The slider widget only offers the ticks min_value, min_value + step, ...
up to max_value: the value produced when the user drags to tick k. -/
def SliderSpec.valueAt (s : SliderSpec) (k : ℕ) : ℤ :=
  min s.maxValue (s.minValue + s.step * k)

def amineSlider : SliderSpec := ⟨"Flujo de Amina (kg/min)", 241, 740, 300, 1⟩

def airSlider : SliderSpec := ⟨"Flujo de Aire Columna 1(kg/min)", 175, 372, 180, 1⟩

def ironSlider : SliderSpec := ⟨"Hierro Concentrado (%)", 62, 69, 63, 1⟩

/-- One full render pass of the script: load the model through the cache
(a raising load crashes the render, hence the Except), read the three
sliders at the user's chosen ticks, then run the prediction logic.  Returns
the emitted elements, the number of predict invocations and the new cache. -/
def appRender (fs : String → FileState) (cs : CacheState) (pressed : Bool)
    (k1 k2 k3 : ℕ) : Except LoadExc (List UIElem × ℕ × CacheState) :=
  match cachedLoadModel fs "modeloproyecto.joblib" cs with
  | Except.error e => Except.error e
  | Except.ok ((mo, loadElems), cs1) =>
    let p := predictionLogic mo pressed
      (amineSlider.valueAt k1) (airSlider.valueAt k2) (ironSlider.valueAt k3)
    Except.ok (loadElems ++ p.1, p.2, cs1)

/-- A stub model trained on the expected feature names whose regressor
always returns the single value 12.3456. -/
def stubModel : Model :=
  ⟨featureNames, fun _ => Except.ok [PyVal.num ((123456 : ℚ) / 10000)]⟩

/-- A model trained on feature names that do not match df_input's columns. -/
def wrongNamesModel : Model :=
  ⟨["x1", "x2", "x3"], fun _ => Except.ok [PyVal.num 0]⟩

/-- A model whose predict returns an empty array, so prediction_value[0]
raises IndexError. -/
def emptyOutModel : Model :=
  ⟨featureNames, fun _ => Except.ok []⟩

/-- A model returning a fixed output list on any matching input. -/
def constModel (out : List PyVal) : Model :=
  ⟨featureNames, fun _ => Except.ok out⟩

/-- A filesystem on which every path is present and holds the stub model. -/
def fsStub : String → FileState := fun _ => FileState.present stubModel

/-- A filesystem on which every path exists but cannot be deserialized. -/
def fsUnreadable : String → FileState :=
  fun _ => FileState.unreadable "invalid load key"

/-- A filesystem with no files at all. -/
def fsMissing : String → FileState := fun _ => FileState.missing

/-- C5: the input form exposes exactly three sliders whose range, default
and step match the declared table, and every value a slider can produce
stays within its closed range. -/
theorem sliders_match_spec_and_stay_in_range :
    (amineSlider.minValue = 241 ∧ amineSlider.maxValue = 740 ∧
     amineSlider.value = 300 ∧ amineSlider.step = 1) ∧
    (airSlider.minValue = 175 ∧ airSlider.maxValue = 372 ∧
     airSlider.value = 180 ∧ airSlider.step = 1) ∧
    (ironSlider.minValue = 62 ∧ ironSlider.maxValue = 69 ∧
     ironSlider.value = 63 ∧ ironSlider.step = 1) ∧
    (∀ k : ℕ, 241 ≤ amineSlider.valueAt k ∧ amineSlider.valueAt k ≤ 740) ∧
    (∀ k : ℕ, 175 ≤ airSlider.valueAt k ∧ airSlider.valueAt k ≤ 372) ∧
    (∀ k : ℕ, 62 ≤ ironSlider.valueAt k ∧ ironSlider.valueAt k ≤ 69) := by
  refine ⟨⟨rfl, rfl, rfl, rfl⟩, ⟨rfl, rfl, rfl, rfl⟩, ⟨rfl, rfl, rfl, rfl⟩, ?_, ?_, ?_⟩ <;>
    intro k <;>
    simp only [SliderSpec.valueAt, amineSlider, airSlider, ironSlider] <;>
    omega

/-- C9: every slider value is an integer, so each of the three cells of the
record passed to the model has denominator 1, never a fractional value. -/
theorem record_cells_are_integers (k1 k2 k3 : ℕ) :
    ((dfInput (amineSlider.valueAt k1) (airSlider.valueAt k2)
        (ironSlider.valueAt k3)).cols.map (fun p => p.snd.den)) = [1, 1, 1] := by
  simp [dfInput]

/-- C2: when the loader returned none, the render shows only the persistent
warning (whose text starts with the required phrase), the predict button is
not rendered, and no prediction attempt occurs. -/
theorem model_none_blocks_prediction (pressed : Bool) (a b c : ℤ) :
    (predictionLogic none pressed a b c).1 = [UIElem.warningBox warnMsg] ∧
    (predictionLogic none pressed a b c).2 = 0 ∧
    UIElem.button btnLabel ∉ (predictionLogic none pressed a b c).1 ∧
    warnMsg = "El modelo no pudo ser cargado" ++
      ". Por favor, verifica la ruta del archivo del modelo." := by
  refine ⟨rfl, rfl, ?_, rfl⟩
  simp [predictionLogic, btnLabel, warnMsg]

/-- C8: with the button not pressed, no predict call happens and no result,
error box or result subheader is rendered, whatever the model state. -/
theorem no_prediction_without_press (model : Option Model) (a b c : ℤ) :
    (predictionLogic model false a b c).2 = 0 ∧
    (∀ s, UIElem.successBox s ∉ (predictionLogic model false a b c).1) ∧
    (∀ s, UIElem.errorBox s ∉ (predictionLogic model false a b c).1) ∧
    (∀ s, UIElem.subheader s ∉ (predictionLogic model false a b c).1) := by
  cases model <;> simp [predictionLogic]

/-- C1: for every in-range input and any loaded model, pressing predict
renders either a success box or the caught inline error message carrying
the exception text; predictionLogic is a total function, so no exception
from the predict call escapes and the render pass cannot crash. -/
theorem in_range_predict_success_or_caught (m : Model) (a b c : ℤ)
    (ha : 241 ≤ a ∧ a ≤ 740) (hb : 175 ≤ b ∧ b ≤ 372) (hc : 62 ≤ c ∧ c ≤ 69) :
    (∃ s, UIElem.successBox s ∈ (predictionLogic (some m) true a b c).1) ∨
    (∃ e, UIElem.errorBox (predErrText ++ e) ∈ (predictionLogic (some m) true a b c).1) := by
  rcases hp : m.predict (dfInput a b c) with e | vals
  · exact Or.inr ⟨e, by simp [predictionLogic, tryPredictBlock, hp]⟩
  · rcases vals with _ | ⟨v, rest⟩
    · exact Or.inr ⟨idxErrMsg, by simp [predictionLogic, tryPredictBlock, hp]⟩
    · rcases v with q | s
      · exact Or.inl ⟨successLead ++ formatTwoDec q ++ "%`",
          by simp [predictionLogic, tryPredictBlock, hp, formatPy]⟩
      · exact Or.inr ⟨"Unknown format code .2f for object of type str",
          by simp [predictionLogic, tryPredictBlock, hp, formatPy]⟩

/-- Witness for C1: the default inputs are in range and with the stub model
the disjunction holds. -/
theorem in_range_predict_witness :
    (241 ≤ (300 : ℤ) ∧ (300 : ℤ) ≤ 740) ∧
    ((∃ s, UIElem.successBox s ∈ (predictionLogic (some stubModel) true 300 180 63).1) ∨
     (∃ e, UIElem.errorBox (predErrText ++ e) ∈
        (predictionLogic (some stubModel) true 300 180 63).1)) :=
  ⟨by decide,
   in_range_predict_success_or_caught stubModel 300 180 63 (by decide) (by decide) (by decide)⟩

/-- C6: the record built by df_input carries exactly the source's field
names in source order; when the model's schema differs from them, predict
fails, the failure is surfaced as the caught inline error box, and no
success box is rendered. -/
theorem schema_mismatch_fails_caught (m : Model) (a b c : ℤ)
    (h : m.schema ≠ featureNames) :
    (dfInput a b c).cols.map Prod.fst = featureNames ∧
    m.predict (dfInput a b c) =
      Except.error "The feature names should match those that were passed during fit" ∧
    UIElem.errorBox
        (predErrText ++ "The feature names should match those that were passed during fit")
      ∈ (predictionLogic (some m) true a b c).1 ∧
    (∀ s, UIElem.successBox s ∉ (predictionLogic (some m) true a b c).1) := by
  have hn : (dfInput a b c).cols.map Prod.fst = featureNames := rfl
  have hp : m.predict (dfInput a b c) =
      Except.error "The feature names should match those that were passed during fit" := by
    unfold Model.predict
    rw [hn, if_neg (fun hh => h hh.symm)]
  refine ⟨hn, hp, by simp [predictionLogic, tryPredictBlock, hp], fun s => ?_⟩
  simp [predictionLogic, tryPredictBlock, hp]

/-- Witness for C6: a model trained on different names is rejected. -/
theorem schema_mismatch_witness :
    wrongNamesModel.schema ≠ featureNames ∧
    wrongNamesModel.predict (dfInput 300 180 63) =
      Except.error "The feature names should match those that were passed during fit" :=
  ⟨by decide, (schema_mismatch_fails_caught wrongNamesModel 300 180 63 (by decide)).2.1⟩

/-- C4: on a successful numeric prediction the success box shows the scalar
formatted to exactly two decimal places, followed by a percent sign; at
inputs (300, 180, 63) with the stub model returning 12.3456 the formatted
result is "12.35%". -/
theorem success_render_two_decimals (q : ℚ) (rest : List PyVal) (a b c : ℤ) :
    (predictionLogic (some (constModel (PyVal.num q :: rest))) true a b c).1 =
      [UIElem.button btnLabel, UIElem.subheader subheaderMsg,
       UIElem.successBox (successLead ++ formatTwoDec q ++ "%`"),
       UIElem.infoBox infoMsg] ∧
    formatTwoDec ((123456 : ℚ) / 10000) ++ "%" = "12.35%" ∧
    (predictionLogic (some stubModel) true 300 180 63).1 =
      [UIElem.button btnLabel, UIElem.subheader subheaderMsg,
       UIElem.successBox (successLead ++ "12.35%`"), UIElem.infoBox infoMsg] := by
  have hround : round ((123456 : ℚ) / 10000 * 100) = 1235 := by
    norm_num [round_eq]
  have hfmt : formatTwoDec ((123456 : ℚ) / 10000) = "12.35" := by
    rw [formatTwoDec, hround]
    decide
  refine ⟨?_, by rw [hfmt]; decide, ?_⟩
  · simp [predictionLogic, tryPredictBlock, Model.predict, constModel, dfInput,
      featureNames, formatPy]
  · have h1 : (predictionLogic (some stubModel) true 300 180 63).1 =
        [UIElem.button btnLabel, UIElem.subheader subheaderMsg,
         UIElem.successBox (successLead ++ formatTwoDec ((123456 : ℚ) / 10000) ++ "%`"),
         UIElem.infoBox infoMsg] := by
      simp [predictionLogic, tryPredictBlock, Model.predict, stubModel, dfInput,
        featureNames, formatPy]
    rw [h1, hfmt]
    decide

/-- C7: once the cached loader has answered for a path, calling it again
with the same path returns the identical memoized result and cache state
(so no second file read happens), and the first call read the file at most
once. -/
theorem cached_loader_memoized (fs : String → FileState) (path : String)
    (cs cs1 : CacheState) (r : Option Model × List UIElem)
    (h : cachedLoadModel fs path cs = Except.ok (r, cs1)) :
    cachedLoadModel fs path cs1 = Except.ok (r, cs1) ∧
    cs1.loadCount ≤ cs.loadCount + 1 := by
  unfold cachedLoadModel at h ⊢
  rcases hl : cs.entries.lookup path with _ | r0
  · simp only [hl] at h
    rcases hm : load_model fs path with e | r1
    · simp only [hm] at h
      exact absurd h (by simp)
    · simp only [hm, Except.ok.injEq, Prod.mk.injEq] at h
      obtain ⟨h1, h2⟩ := h
      subst h1
      subst h2
      constructor
      · simp [List.lookup]
      · simp
  · simp only [hl, Except.ok.injEq, Prod.mk.injEq] at h
    obtain ⟨h1, h2⟩ := h
    subst h1
    subst h2
    simp only [hl]
    exact ⟨trivial, Nat.le_succ _⟩

/-- Witness for C7: loading the stub filesystem from the empty cache, then
again from the resulting cache, returns the same instance with one read. -/
theorem cached_loader_memoized_witness :
    cachedLoadModel fsStub "modeloproyecto.joblib"
        ⟨[("modeloproyecto.joblib", (some stubModel, []))], 1⟩ =
      Except.ok ((some stubModel, []),
        ⟨[("modeloproyecto.joblib", (some stubModel, []))], 1⟩) ∧
    (⟨[("modeloproyecto.joblib", (some stubModel, []))], 1⟩ : CacheState).loadCount ≤
      CacheState.empty.loadCount + 1 :=
  cached_loader_memoized fsStub "modeloproyecto.joblib" CacheState.empty
    ⟨[("modeloproyecto.joblib", (some stubModel, []))], 1⟩ (some stubModel, []) rfl

/-- Counterexample for C3: on a present but unreadable model file the loader
does not fail with the caught file-not-found error and does not return the
null result with a warning: joblib.load raises an exception that the except
clause (which names only FileNotFoundError) does not catch, so it
propagates out of load_model. -/
theorem unreadable_file_escapes_loader :
    load_model fsUnreadable "modeloproyecto.joblib" =
      Except.error (LoadExc.other "invalid load key") := rfl

/-- C3 amended: when the model file is missing, joblib.load raises
FileNotFoundError, load_model catches it, renders the error text and
returns none, and the full render pass shows the blocking warning with zero
prediction attempts; no retry and no alternate path occurs (the render
reads exactly this one path once). -/
theorem missing_file_blocks_prediction (fs : String → FileState)
    (pressed : Bool) (k1 k2 k3 : ℕ)
    (h : fs "modeloproyecto.joblib" = FileState.missing) :
    load_model fs "modeloproyecto.joblib" =
      Except.ok (none, [UIElem.errorBox (loadErrMsg "modeloproyecto.joblib")]) ∧
    appRender fs CacheState.empty pressed k1 k2 k3 =
      Except.ok ([UIElem.errorBox (loadErrMsg "modeloproyecto.joblib"),
                  UIElem.warningBox warnMsg], 0,
        ⟨[("modeloproyecto.joblib",
           (none, [UIElem.errorBox (loadErrMsg "modeloproyecto.joblib")]))], 1⟩) := by
  have h1 : load_model fs "modeloproyecto.joblib" =
      Except.ok (none, [UIElem.errorBox (loadErrMsg "modeloproyecto.joblib")]) := by
    unfold load_model joblibLoad
    rw [h]
  refine ⟨h1, ?_⟩
  unfold appRender cachedLoadModel
  simp [h1, CacheState.empty, List.lookup, predictionLogic]

/-- Witness for C3 amended: the all-missing filesystem. -/
theorem missing_file_blocks_witness :
    load_model fsMissing "modeloproyecto.joblib" =
      Except.ok (none, [UIElem.errorBox (loadErrMsg "modeloproyecto.joblib")]) :=
  (missing_file_blocks_prediction fsMissing true 0 0 0 rfl).1

/-- C10: exceptions raised after the predict call, by indexing the output
at position 0 or by formatting a non-numeric value to two decimals, are
also caught by the same except clause and rendered as the inline error box;
no success box appears and the render does not crash. -/
theorem extraction_and_format_errors_caught (m : Model) (a b c : ℤ)
    (vals : List PyVal) (hp : m.predict (dfInput a b c) = Except.ok vals)
    (h : vals = [] ∨ ∃ s rest, vals = PyVal.str s :: rest) :
    (∃ e, UIElem.errorBox (predErrText ++ e) ∈ (predictionLogic (some m) true a b c).1) ∧
    (∀ s, UIElem.successBox s ∉ (predictionLogic (some m) true a b c).1) := by
  rcases h with h | ⟨s, rest, h⟩ <;> subst h
  · exact ⟨⟨idxErrMsg, by simp [predictionLogic, tryPredictBlock, hp]⟩,
      fun s => by simp [predictionLogic, tryPredictBlock, hp]⟩
  · exact ⟨⟨"Unknown format code .2f for object of type str",
      by simp [predictionLogic, tryPredictBlock, hp, formatPy]⟩,
      fun t => by simp [predictionLogic, tryPredictBlock, hp, formatPy]⟩

/-- Witness for C10: a model whose predict returns the empty array. -/
theorem extraction_errors_witness :
    (∃ e, UIElem.errorBox (predErrText ++ e) ∈
       (predictionLogic (some emptyOutModel) true 300 180 63).1) ∧
    (∀ s, UIElem.successBox s ∉ (predictionLogic (some emptyOutModel) true 300 180 63).1) :=
  extraction_and_format_errors_caught emptyOutModel 300 180 63 [] rfl (Or.inl rfl)
